import Mathlib

/-!
Verification development for the Int-BE realtime notification backend.

The definitions below are a shallow embedding of the TypeScript source:
the `WebSocketManager` connection registry (`src/utils/websocket`, shown
in `src/types/index.ts` lines 37-78), the JWT verification path, and the
message handlers of the fully wired server variant in
`src/unnamed/part_000` (lines 485-1125): `handleDailyCheckin`,
`simulateN8nApproval`, `handleRemedialCompletion`, the `ws.on("message")`
dispatcher, the `ws.on("close")` handler and the
`/students/:studentId/pending-interventions` query.

Connections are modelled by numeric instance identifiers (`ConnId`); the
channel state of each connection is an environment `ConnId → ReadyState`.
The JavaScript `Map` backing the registry is an association list with
`Map.set` / `Map.delete` / `Map.get` semantics.  The Prisma database is a
record of lists with serial id counters; `prisma.$transaction` is a single
atomic step whose success or failure is an explicit `dbOk` flag (on
failure the `catch` branch of the handler runs and the database is
unchanged).  The `setTimeout` in `simulateN8nApproval` is modelled by a
`ScheduledApproval` value carrying the delay; the Lean function
`simulateN8nApproval` is the body that runs when the timer fires.
-/

abbrev StudentId := String

/-- A connection instance identifier standing for one `WebSocket` object. -/
abbrev ConnId := Nat

/-- The `readyState` values of a WebSocket channel. -/
inductive ReadyState
  | CONNECTING
  | OPEN
  | CLOSING
  | CLOSED
deriving DecidableEq

/-- JavaScript `Map.get`: first (unique) entry for the key, if any. -/
def mapGet : List (StudentId × ConnId) → StudentId → Option ConnId
  | [], _ => none
  | (k1, v) :: rest, k => if k1 = k then some v else mapGet rest k

/-- JavaScript `Map.set`: replace in place if the key exists, else append. -/
def mapSet : List (StudentId × ConnId) → StudentId → ConnId → List (StudentId × ConnId)
  | [], k, v => [(k, v)]
  | (k1, v1) :: rest, k, v =>
    if k1 = k then (k, v) :: rest else (k1, v1) :: mapSet rest k v

/-- JavaScript `Map.delete`: remove the (unique) entry for the key. -/
def mapDelete : List (StudentId × ConnId) → StudentId → List (StudentId × ConnId)
  | [], _ => []
  | (k1, v1) :: rest, k => if k1 = k then rest else (k1, v1) :: mapDelete rest k

/-- `WebSocketManager` (the ConnectionRegistry): `private connections: Map<string, WebSocket>`. -/
structure WebSocketManager where
  connections : List (StudentId × ConnId)
deriving DecidableEq

/-- `addConnection(studentId, socket) { this.connections.set(studentId, socket) }`. -/
def addConnection (studentId : StudentId) (socket : ConnId) (m : WebSocketManager) :
    WebSocketManager :=
  { connections := mapSet m.connections studentId socket }

/-- `removeConnection(studentId) { this.connections.delete(studentId) }`. -/
def removeConnection (studentId : StudentId) (m : WebSocketManager) : WebSocketManager :=
  { connections := mapDelete m.connections studentId }

/-- `getConnection(studentId) { return this.connections.get(studentId) }`. -/
def getConnection (m : WebSocketManager) (studentId : StudentId) : Option ConnId :=
  mapGet m.connections studentId

/-- The JWT claims object `{ studentId: string }`. -/
structure JwtClaims where
  studentId : StudentId
deriving DecidableEq

/-- A bearer credential as `jwt.verify` sees it: either unparseable, or a
payload signed with some secret, possibly past its `expiresIn`. -/
inductive Token
  | malformed
  | signed (claims : JwtClaims) (signedWith : String) (expired : Bool)
deriving DecidableEq

inductive JwtError
  | malformedToken
  | signatureMismatch
  | tokenExpired
deriving DecidableEq

/-- `jwt.verify(token, secret)`: throws (here: returns `.error`) on a
malformed token, a signature mismatch or an expired token. -/
def jwtVerify (secret : String) : Token → Except JwtError JwtClaims
  | Token.malformed => Except.error JwtError.malformedToken
  | Token.signed claims signedWith expired =>
    if signedWith = secret then
      if expired then Except.error JwtError.tokenExpired else Except.ok claims
    else Except.error JwtError.signatureMismatch

/-- `WebSocketManager.verifyToken`: `try { return jwt.verify(...).studentId } catch { return null }`. -/
def verifyToken (secret : String) (token : Token) : Option StudentId :=
  match jwtVerify secret token with
  | Except.ok decoded => some decoded.studentId
  | Except.error _ => none

/-- A row of the `daily_logs` table. -/
structure DailyLog where
  logId : Nat
  studentId : StudentId
  focusMinutes : Int
  quizScore : Int
  status : String
  timestamp : Nat
deriving DecidableEq

/-- A row of the `interventions` table. -/
structure Intervention where
  interventionId : Nat
  studentId : StudentId
  taskAssigned : Bool
  assignedTasks : Option String
  completed : Bool
  createdAt : Nat
deriving DecidableEq

/-- The persistence collaborator: both tables plus the serial id counters
and the current clock value used for `created_at`. -/
structure Db where
  dailyLogs : List DailyLog
  interventions : List Intervention
  nextLogId : Nat
  nextInterventionId : Nat
  now : Nat
deriving DecidableEq

/-- Messages the server emits on a connection (`ws.send(JSON.stringify ...)`). -/
inductive ServerMsg
  | errorMsg (message : String)
  | connected (message : String) (studentId : StudentId) (simulationMode : Bool)
  | checkinResult (status : String) (message : String) (logId : Nat)
      (interventionId : Option Nat)
  | interventionAssigned (interventionId : Nat) (assignedTasks : String)
      (message : String) (mode : String) (simulated : Bool)
  | remedialCompleted (message : String) (interventionId : Nat) (mode : String)
deriving DecidableEq

/-- `sendToStudent(studentId, message)`: look the socket up, and if it
exists and `readyState === WebSocket.OPEN`, hand the serialized message to
the channel and return `true`; otherwise return `false`.  The registry is
returned too, to record that the method leaves it untouched; the third
component lists the writes handed to channels. -/
def sendToStudent (env : ConnId → ReadyState) (m : WebSocketManager)
    (studentId : StudentId) (message : ServerMsg) :
    Bool × WebSocketManager × List (ConnId × ServerMsg) :=
  match mapGet m.connections studentId with
  | some socket =>
    if env socket = ReadyState.OPEN then (true, m, [(socket, message)])
    else (false, m, [])
  | none => (false, m, [])

/-- `isConnected(studentId)`. -/
def isConnected (env : ConnId → ReadyState) (m : WebSocketManager)
    (studentId : StudentId) : Bool :=
  match mapGet m.connections studentId with
  | some socket => env socket = ReadyState.OPEN
  | none => false

/-- `const AUTO_APPROVE_DELAY = 5000`. -/
def AUTO_APPROVE_DELAY : Nat := 5000

/-- The payload of a `daily_checkin` message; a missing field is the
JavaScript `undefined`. -/
structure CheckinPayload where
  quizScore : Option Int
  focusMinutes : Option Int
deriving DecidableEq

/-- The payload of a `remedial_completed` message. -/
structure CompletionPayload where
  interventionId : Option Nat
deriving DecidableEq

/-- A `setTimeout(simulateN8nApproval ..., AUTO_APPROVE_DELAY)` call:
the arguments captured by the timer callback plus its delay. -/
structure ScheduledApproval where
  studentId : StudentId
  interventionId : Nat
  quizScore : Int
  focusMinutes : Int
  delay : Nat
deriving DecidableEq

/-- `const isOnTrack = quizScore >= 7 && focusMinutes >= 60` (line 670). -/
def isOnTrack (quizScore focusMinutes : Int) : Bool :=
  quizScore ≥ 7 && focusMinutes ≥ 60

/-- `const status = isOnTrack ? "On Track" : "Pending Mentor Review"` (line 671). -/
def derivedStatus (quizScore focusMinutes : Int) : String :=
  if isOnTrack quizScore focusMinutes then "On Track" else "Pending Mentor Review"

/-- `prisma.dailyLog.create` with a serial `log_id` and `CURRENT_TIMESTAMP`. -/
def dailyLogCreate (db : Db) (studentId : StudentId) (focusMinutes quizScore : Int)
    (status : String) : Db × DailyLog :=
  let log : DailyLog :=
    { logId := db.nextLogId, studentId := studentId, focusMinutes := focusMinutes,
      quizScore := quizScore, status := status, timestamp := db.now }
  ({ db with dailyLogs := db.dailyLogs ++ [log], nextLogId := db.nextLogId + 1 }, log)

/-- `prisma.intervention.create({ data: { studentId, taskAssigned: false,
assignedTasks: null, completed: false } })`. -/
def interventionCreate (db : Db) (studentId : StudentId) : Db × Intervention :=
  let intervention : Intervention :=
    { interventionId := db.nextInterventionId, studentId := studentId,
      taskAssigned := false, assignedTasks := none, completed := false,
      createdAt := db.now }
  ({ db with interventions := db.interventions ++ [intervention],
             nextInterventionId := db.nextInterventionId + 1 }, intervention)

/-- `handleDailyCheckin` (wired variant, lines 652-756).  `simMode` is
`SIMULATION_MODE`; `dbOk` says whether the persistence calls (the single
create in the on-track branch, the `prisma.$transaction` in the pending
branch) succeed — on failure the handler's `catch` sends the generic
error and the database is untouched.  Returns the new database, the
messages sent on this connection, and the timers scheduled. -/
def handleDailyCheckin (studentId : StudentId) (payload : CheckinPayload)
    (simMode dbOk : Bool) (db : Db) : Db × List ServerMsg × List ScheduledApproval :=
  match payload.quizScore, payload.focusMinutes with
  | some quizScore, some focusMinutes =>
    if isOnTrack quizScore focusMinutes then
      if dbOk then
        let created := dailyLogCreate db studentId focusMinutes quizScore
          (derivedStatus quizScore focusMinutes)
        (created.1,
         [ServerMsg.checkinResult "On Track" "Great job! You are on track."
            created.2.logId none],
         [])
      else (db, [ServerMsg.errorMsg "Failed to process daily check-in"], [])
    else
      if dbOk then
        let created1 := dailyLogCreate db studentId focusMinutes quizScore
          (derivedStatus quizScore focusMinutes)
        let created2 := interventionCreate created1.1 studentId
        (created2.1,
         [ServerMsg.checkinResult "Pending Mentor Review"
            "Your performance needs attention. Waiting for mentor review."
            created1.2.logId (some created2.2.interventionId)],
         if simMode then
           [{ studentId := studentId, interventionId := created2.2.interventionId,
              quizScore := quizScore, focusMinutes := focusMinutes,
              delay := AUTO_APPROVE_DELAY }]
         else [])
      else (db, [ServerMsg.errorMsg "Failed to process daily check-in"], [])
  | _, _ => (db, [ServerMsg.errorMsg "quizScore and focusMinutes are required"], [])

/-- The three remedial-task texts of `simulateN8nApproval` (lines 771-777). -/
def taskCombined : String :=
  "1. Complete chapter revision exercises\n2. Practice focus techniques for 30 minutes\n3. Retake the quiz (Target: 7+/10)"

def taskQuizOnly : String :=
  "1. Review incorrect quiz answers\n2. Complete practice problems\n3. Retake the quiz (Target: 7+/10)"

def taskFocusOnly : String :=
  "1. Implement Pomodoro technique\n2. Track focus time daily\n3. Reach 60+ minutes tomorrow"

/-- The task-text selection of `simulateN8nApproval`:
`if (quizScore < 7 && focusMinutes < 60) ... else if (quizScore < 7) ... else ...`. -/
def assignedTasksFor (quizScore focusMinutes : Int) : String :=
  if quizScore < 7 && focusMinutes < 60 then taskCombined
  else if quizScore < 7 then taskQuizOnly
  else taskFocusOnly

/-- The outcome of one firing of the simulated-approval timer. -/
structure FireResult where
  db : Db
  sent : Bool
  deliveries : List (ConnId × ServerMsg)
  rescheduled : List ScheduledApproval
deriving DecidableEq

/-- The body of the `setTimeout` callback in `simulateN8nApproval`
(lines 766-812): derive the task text, `prisma.intervention.update` the
record (which throws — caught and logged, nothing sent — when no record
with that id exists), then attempt `wsManager.sendToStudent`; a `false`
return is only logged, nothing is queued or rescheduled. -/
def simulateN8nApproval (env : ConnId → ReadyState) (reg : WebSocketManager)
    (t : ScheduledApproval) (db : Db) : FireResult :=
  let assignedTasks := assignedTasksFor t.quizScore t.focusMinutes
  if db.interventions.any (fun r => r.interventionId == t.interventionId) then
    let db1 := { db with interventions := db.interventions.map (fun r =>
        if r.interventionId == t.interventionId then
          { r with taskAssigned := true, assignedTasks := some assignedTasks }
        else r) }
    let res := sendToStudent env reg t.studentId
      (ServerMsg.interventionAssigned t.interventionId assignedTasks
        "🎓 Remedial task has been assigned by your mentor. Please complete it to unlock full access."
        "remedial_only" true)
    { db := db1, sent := res.1, deliveries := res.2.2, rescheduled := [] }
  else
    { db := db, sent := false, deliveries := [], rescheduled := [] }

/-- The `where` filter of the `updateMany` in `handleRemedialCompletion`:
`{ interventionId, studentId, taskAssigned: true }` — note that
`completed` is not part of the filter. -/
def remedialMatches (studentId : StudentId) (interventionId : Nat)
    (r : Intervention) : Bool :=
  r.interventionId == interventionId && r.studentId == studentId && r.taskAssigned

/-- `handleRemedialCompletion` (wired variant, lines 893-954).  The
JavaScript guard `if (!interventionId)` is true for a missing field and
for the falsy number 0.  `updateMany` sets `completed: true` on every
matching row and reports the match count; count 0 is rejected. -/
def handleRemedialCompletion (studentId : StudentId) (payload : CompletionPayload)
    (db : Db) : Db × List ServerMsg :=
  match payload.interventionId with
  | none => (db, [ServerMsg.errorMsg "interventionId is required"])
  | some interventionId =>
    if interventionId == 0 then
      (db, [ServerMsg.errorMsg "interventionId is required"])
    else
      if (db.interventions.filter (remedialMatches studentId interventionId)).length == 0 then
        (db, [ServerMsg.errorMsg "Invalid intervention or not assigned"])
      else
        ({ db with interventions := db.interventions.map (fun r =>
            if remedialMatches studentId interventionId r then
              { r with completed := true }
            else r) },
         [ServerMsg.remedialCompleted
            "Remedial task completed successfully! Full access restored."
            interventionId "normal"])

/-- The messages the `ws.on("message")` dispatcher distinguishes by
`type`; `unknownType` is any other value, handled by the `default` case. -/
inductive ClientMsg
  | connect (token : Token)
  | dailyCheckin (payload : CheckinPayload)
  | remedialCompleted (payload : CompletionPayload)
  | unknownType
deriving DecidableEq

/-- Per-connection state of the `wss.on("connection")` closure: the
connection instance, the captured `let studentId: string | null = null`,
and whether `ws.close()` has been called. -/
structure Session where
  connId : ConnId
  studentId : Option StudentId
  closed : Bool
deriving DecidableEq

/-- Everything one run of the message handler produces. -/
structure StepResult where
  session : Session
  registry : WebSocketManager
  db : Db
  sent : List ServerMsg
  scheduled : List ScheduledApproval
deriving DecidableEq

/-- The `ws.on("message")` handler (lines 577-637): dispatch on `type`.
`connect` first overwrites the captured `studentId` with
`wsManager.verifyToken(token)`; on `null` it sends the error and closes
without touching the registry, otherwise it calls
`wsManager.addConnection` and confirms.  The two domain messages are
guarded by `if (!studentId)`; the `default` case only sends an error. -/
def onWsMessage (secret : String) (simMode dbOk : Bool) (s : Session)
    (reg : WebSocketManager) (db : Db) (msg : ClientMsg) : StepResult :=
  match msg with
  | ClientMsg.connect token =>
    match verifyToken secret token with
    | none =>
      { session := { s with studentId := none, closed := true }, registry := reg,
        db := db, sent := [ServerMsg.errorMsg "Invalid token"], scheduled := [] }
    | some studentId =>
      { session := { s with studentId := some studentId },
        registry := addConnection studentId s.connId reg, db := db,
        sent := [ServerMsg.connected "Successfully connected" studentId simMode],
        scheduled := [] }
  | ClientMsg.dailyCheckin payload =>
    match s.studentId with
    | none =>
      { session := s, registry := reg, db := db,
        sent := [ServerMsg.errorMsg "Not authenticated"], scheduled := [] }
    | some studentId =>
      let r := handleDailyCheckin studentId payload simMode dbOk db
      { session := s, registry := reg, db := r.1, sent := r.2.1, scheduled := r.2.2 }
  | ClientMsg.remedialCompleted payload =>
    match s.studentId with
    | none =>
      { session := s, registry := reg, db := db,
        sent := [ServerMsg.errorMsg "Not authenticated"], scheduled := [] }
    | some studentId =>
      let r := handleRemedialCompletion studentId payload db
      { session := s, registry := reg, db := r.1, sent := r.2, scheduled := [] }
  | ClientMsg.unknownType =>
    { session := s, registry := reg, db := db,
      sent := [ServerMsg.errorMsg "Unknown message type"], scheduled := [] }

/-- The `ws.on("close")` handler (lines 639-643):
`if (studentId) wsManager.removeConnection(studentId)`. -/
def onWsClose (s : Session) (reg : WebSocketManager) : WebSocketManager :=
  match s.studentId with
  | none => reg
  | some studentId => removeConnection studentId reg

/-- Insertion step of the `orderBy: { createdAt: "desc" }` sort. -/
def insertByCreatedAtDesc (r : Intervention) :
    List Intervention → List Intervention
  | [] => [r]
  | x :: xs =>
    if x.createdAt ≤ r.createdAt then r :: x :: xs
    else x :: insertByCreatedAtDesc r xs

/-- `orderBy: { createdAt: "desc" }` as an insertion sort. -/
def sortByCreatedAtDesc : List Intervention → List Intervention
  | [] => []
  | x :: xs => insertByCreatedAtDesc x (sortByCreatedAtDesc xs)

/-- The `where` filter of the pending-interventions query:
`{ studentId, taskAssigned: true, completed: false }`. -/
def isPendingFor (studentId : StudentId) (r : Intervention) : Bool :=
  r.studentId == studentId && r.taskAssigned && !r.completed

/-- `GET /students/:studentId/pending-interventions` (lines 1014-1041):
`prisma.intervention.findMany` filtered as above, newest first. -/
def pendingInterventionsFor (db : Db) (studentId : StudentId) : List Intervention :=
  sortByCreatedAtDesc (db.interventions.filter (isPendingFor studentId))

/-! ### Helper lemmas -/

theorem mapGet_mapSet_self (m : List (StudentId × ConnId)) (k : StudentId) (v : ConnId) :
    mapGet (mapSet m k v) k = some v := by
  induction m with
  | nil => simp [mapSet, mapGet]
  | cons hd tl ih =>
    obtain ⟨k1, v1⟩ := hd
    by_cases h : k1 = k
    · simp [mapSet, h, mapGet]
    · simp [mapSet, h, mapGet, ih]

theorem mapGet_mapSet_ne (m : List (StudentId × ConnId)) (k k2 : StudentId) (v : ConnId)
    (h : k2 ≠ k) : mapGet (mapSet m k v) k2 = mapGet m k2 := by
  induction m with
  | nil => simp [mapSet, mapGet, Ne.symm h]
  | cons hd tl ih =>
    obtain ⟨k1, v1⟩ := hd
    by_cases h1 : k1 = k
    · subst h1
      simp [mapSet, mapGet, Ne.symm h]
    · simp only [mapSet, if_neg h1, mapGet]
      by_cases h2 : k1 = k2
      · simp [h2]
      · simp [h2, ih]

theorem mapGet_mapDelete_ne (m : List (StudentId × ConnId)) (k k2 : StudentId)
    (h : k2 ≠ k) : mapGet (mapDelete m k) k2 = mapGet m k2 := by
  induction m with
  | nil => simp [mapDelete, mapGet]
  | cons hd tl ih =>
    obtain ⟨k1, v1⟩ := hd
    by_cases h1 : k1 = k
    · subst h1
      simp [mapDelete, mapGet, Ne.symm h]
    · simp only [mapDelete, if_neg h1, mapGet]
      by_cases h2 : k1 = k2
      · simp [h2]
      · simp [h2, ih]

/-- The relation `orderBy createdAt desc` sorts by. -/
def DescByCreated (a b : Intervention) : Prop := b.createdAt ≤ a.createdAt

theorem mem_insertByCreatedAtDesc (r x : Intervention) (l : List Intervention) :
    x ∈ insertByCreatedAtDesc r l ↔ x = r ∨ x ∈ l := by
  induction l with
  | nil => simp [insertByCreatedAtDesc]
  | cons hd tl ih =>
    by_cases h : hd.createdAt ≤ r.createdAt
    · simp [insertByCreatedAtDesc, h]
    · simp [insertByCreatedAtDesc, h, ih]
      tauto

theorem mem_sortByCreatedAtDesc (x : Intervention) (l : List Intervention) :
    x ∈ sortByCreatedAtDesc l ↔ x ∈ l := by
  induction l with
  | nil => simp [sortByCreatedAtDesc]
  | cons hd tl ih =>
    simp [sortByCreatedAtDesc, mem_insertByCreatedAtDesc, ih]

theorem pairwise_insertByCreatedAtDesc (r : Intervention) (l : List Intervention)
    (h : l.Pairwise DescByCreated) :
    (insertByCreatedAtDesc r l).Pairwise DescByCreated := by
  induction l with
  | nil => simp [insertByCreatedAtDesc, List.Pairwise]
  | cons hd tl ih =>
    rcases List.pairwise_cons.mp h with ⟨hhd, htl⟩
    by_cases hle : hd.createdAt ≤ r.createdAt
    · simp only [insertByCreatedAtDesc, if_pos hle]
      refine List.pairwise_cons.mpr ⟨?_, h⟩
      intro y hy
      rcases List.mem_cons.mp hy with hy1 | hy2
      · subst hy1; exact hle
      · exact le_trans (hhd y hy2) hle
    · simp only [insertByCreatedAtDesc, if_neg hle]
      refine List.pairwise_cons.mpr ⟨?_, ih htl⟩
      intro y hy
      rcases (mem_insertByCreatedAtDesc r y tl).mp hy with hy1 | hy2
      · subst hy1
        exact le_of_not_le hle
      · exact hhd y hy2

theorem pairwise_sortByCreatedAtDesc (l : List Intervention) :
    (sortByCreatedAtDesc l).Pairwise DescByCreated := by
  induction l with
  | nil => simp [sortByCreatedAtDesc]
  | cons hd tl ih => exact pairwise_insertByCreatedAtDesc hd _ ih

theorem filter_length_map_eq (g : Intervention → Intervention)
    (p : Intervention → Bool) (h : ∀ a, p (g a) = p a) (l : List Intervention) :
    ((l.map g).filter p).length = (l.filter p).length := by
  induction l with
  | nil => rfl
  | cons hd tl ih =>
    simp only [List.map_cons, List.filter_cons, h hd]
    by_cases hp : p hd = true
    · simp [hp, ih]
    · simp [hp, ih]

theorem isOnTrack_eq_true_iff (q f : Int) :
    isOnTrack q f = true ↔ (7 ≤ q ∧ 60 ≤ f) := by
  simp [isOnTrack]

theorem isOnTrack_eq_false_iff (q f : Int) :
    isOnTrack q f = false ↔ ¬(7 ≤ q ∧ 60 ≤ f) := by
  rw [← Bool.not_eq_true, isOnTrack_eq_true_iff]

/-! ### Claim theorems -/

/-- C3: for every pair (quizScore, focusMinutes) submitted in a daily
check-in, the derived status is On Track iff quizScore ≥ 7 and
focusMinutes ≥ 60, and Pending Mentor Review otherwise; in particular
(7,60) is on track while (6,60) and (7,59) are pending review. -/
theorem C3_derived_status_threshold :
    (∀ quizScore focusMinutes : Int,
       derivedStatus quizScore focusMinutes = "On Track" ↔
         (7 ≤ quizScore ∧ 60 ≤ focusMinutes)) ∧
    (∀ quizScore focusMinutes : Int,
       derivedStatus quizScore focusMinutes = "Pending Mentor Review" ↔
         ¬(7 ≤ quizScore ∧ 60 ≤ focusMinutes)) ∧
    derivedStatus 7 60 = "On Track" ∧
    derivedStatus 6 60 = "Pending Mentor Review" ∧
    derivedStatus 7 59 = "Pending Mentor Review" := by
  have hne : ("On Track" : String) ≠ "Pending Mentor Review" := by decide
  refine ⟨?_, ?_, by decide, by decide, by decide⟩
  · intro q f
    by_cases h : 7 ≤ q ∧ 60 ≤ f
    · simp [derivedStatus, (isOnTrack_eq_true_iff q f).mpr h, h]
    · have hb : isOnTrack q f = false := (isOnTrack_eq_false_iff q f).mpr h
      simp [derivedStatus, hb, h, Ne.symm hne]
  · intro q f
    by_cases h : 7 ≤ q ∧ 60 ≤ f
    · simp [derivedStatus, (isOnTrack_eq_true_iff q f).mpr h, h, hne]
    · have hb : isOnTrack q f = false := (isOnTrack_eq_false_iff q f).mpr h
      simp [derivedStatus, hb, h]

/-- C5: `sendToStudent(identity, message)` returns true iff a handle is
bound for the identity and its channel reports the open state, in which
case the write is handed to that channel; the registry is never mutated,
and with no bound connection it returns false with no write. -/
theorem C5_sendToStudent_contract (env : ConnId → ReadyState) (m : WebSocketManager)
    (studentId : StudentId) (message : ServerMsg) :
    ((sendToStudent env m studentId message).1 = true ↔
       ∃ socket, mapGet m.connections studentId = some socket ∧
         env socket = ReadyState.OPEN) ∧
    (sendToStudent env m studentId message).2.1 = m ∧
    (∀ socket, mapGet m.connections studentId = some socket →
       env socket = ReadyState.OPEN →
       (sendToStudent env m studentId message).2.2 = [(socket, message)]) ∧
    (mapGet m.connections studentId = none →
       (sendToStudent env m studentId message).1 = false ∧
       (sendToStudent env m studentId message).2.1 = m ∧
       (sendToStudent env m studentId message).2.2 = []) := by
  cases hm : mapGet m.connections studentId with
  | none => simp [sendToStudent, hm]
  | some socket =>
    by_cases he : env socket = ReadyState.OPEN
    · simp [sendToStudent, hm, he]
    · simp [sendToStudent, hm, he]

theorem C5_sendToStudent_contract_witness :
    mapGet (WebSocketManager.mk []).connections "S1" = none ∧
    (sendToStudent (fun _ => ReadyState.OPEN) (WebSocketManager.mk []) "S1"
        (ServerMsg.errorMsg "x")).1 = false ∧
    (sendToStudent (fun _ => ReadyState.OPEN) (WebSocketManager.mk []) "S1"
        (ServerMsg.errorMsg "x")).2.1 = WebSocketManager.mk [] ∧
    (sendToStudent (fun _ => ReadyState.OPEN) (WebSocketManager.mk []) "S1"
        (ServerMsg.errorMsg "x")).2.2 = [] :=
  ⟨rfl,
   ((C5_sendToStudent_contract (fun _ => ReadyState.OPEN) (WebSocketManager.mk [])
       "S1" (ServerMsg.errorMsg "x")).2.2.2 rfl).1,
   ((C5_sendToStudent_contract (fun _ => ReadyState.OPEN) (WebSocketManager.mk [])
       "S1" (ServerMsg.errorMsg "x")).2.2.2 rfl).2.1,
   ((C5_sendToStudent_contract (fun _ => ReadyState.OPEN) (WebSocketManager.mk [])
       "S1" (ServerMsg.errorMsg "x")).2.2.2 rfl).2.2⟩

/-- An empty database, used as a concrete starting state. -/
def dbEmpty : Db :=
  { dailyLogs := [], interventions := [], nextLogId := 1, nextInterventionId := 1,
    now := 0 }

/-- C1: the registry binds last-writer-wins (after binding "S" to
connection 1 and then to connection 2, `get` reaches connection 2), but
`removeConnection` is an unconditional `Map.delete`, not a
compare-and-remove: replaying the exact close handler of the first
(stale) connection deletes the second connection's entry, so after the
stale unbind `get` finds nothing.  This evaluates the code at the
failing input of the claim. -/
theorem C1_stale_unbind_deletes_newer_binding :
    (getConnection
       (addConnection "S" 2 (addConnection "S" 1 (WebSocketManager.mk []))) "S" =
       some 2) ∧
    (let step1 := onWsMessage "secret" true true
       { connId := 1, studentId := none, closed := false }
       (WebSocketManager.mk []) dbEmpty
       (ClientMsg.connect (Token.signed { studentId := "S" } "secret" false))
     let step2 := onWsMessage "secret" true true
       { connId := 2, studentId := none, closed := false }
       step1.registry dbEmpty
       (ClientMsg.connect (Token.signed { studentId := "S" } "secret" false))
     getConnection step2.registry "S" = some 2 ∧
     getConnection (onWsClose step1.session step2.registry) "S" = none) := by
  decide

/-- A database whose single intervention (id 1, owner "S1") is already
assigned and already completed. -/
def dbC2 : Db :=
  { dailyLogs := [],
    interventions := [{ interventionId := 1, studentId := "S1", taskAssigned := true,
                        assignedTasks := some "t", completed := true, createdAt := 0 }],
    nextLogId := 1, nextInterventionId := 2, now := 1 }

/-- C2 counterexample: in `dbC2` no intervention with id 1 owned by "S1"
has taskAssigned = true and completed = false (the first conjunct), so
the claim says a completion report for id 1 must be rejected; the handler
instead answers with the success confirmation — a second completion
report after completed = true is accepted again. -/
theorem C2_second_completion_accepted_counterexample :
    (dbC2.interventions.filter
       (fun r => remedialMatches "S1" 1 r && !r.completed)).length = 0 ∧
    (handleRemedialCompletion "S1" { interventionId := some 1 } dbC2).2 =
      [ServerMsg.remedialCompleted
        "Remedial task completed successfully! Full access restored." 1 "normal"] := by
  decide

/-- C2 (amended): the completion report is rejected exactly when the
payload id is falsy (missing or 0) or no intervention with that id,
owned by the calling identity, has taskAssigned = true — the `completed`
flag is not part of the filter; otherwise it sets completed = true on
the matching records and sends the confirmation on the same connection,
and since acceptance ignores `completed`, the post-state still matches,
so a second report for the same intervention is accepted again rather
than rejected. -/
theorem C2_remedial_completion_amended (studentId : StudentId) (db : Db) (i : Nat)
    (hi : i ≠ 0) :
    (handleRemedialCompletion studentId { interventionId := none } db =
       (db, [ServerMsg.errorMsg "interventionId is required"])) ∧
    (handleRemedialCompletion studentId { interventionId := some 0 } db =
       (db, [ServerMsg.errorMsg "interventionId is required"])) ∧
    ((db.interventions.filter (remedialMatches studentId i)).length = 0 →
       handleRemedialCompletion studentId { interventionId := some i } db =
         (db, [ServerMsg.errorMsg "Invalid intervention or not assigned"])) ∧
    ((db.interventions.filter (remedialMatches studentId i)).length ≠ 0 →
       (handleRemedialCompletion studentId { interventionId := some i } db).2 =
         [ServerMsg.remedialCompleted
            "Remedial task completed successfully! Full access restored." i "normal"] ∧
       (handleRemedialCompletion studentId { interventionId := some i } db).1.interventions =
         db.interventions.map (fun r =>
           if remedialMatches studentId i r then { r with completed := true } else r) ∧
       ((handleRemedialCompletion studentId { interventionId := some i } db).1.interventions.filter
           (remedialMatches studentId i)).length ≠ 0) := by
  have hiz : (i == 0) = false := by simp [hi]
  have hg : ∀ a : Intervention,
      remedialMatches studentId i
        (if remedialMatches studentId i a then { a with completed := true } else a) =
      remedialMatches studentId i a := by
    intro a
    cases ha : remedialMatches studentId i a with
    | false => simp [ha]
    | true =>
      simp only [if_pos ha]
      simpa [remedialMatches] using ha
  refine ⟨rfl, ?_, ?_, ?_⟩
  · simp [handleRemedialCompletion]
  · intro h0
    simp [handleRemedialCompletion, hiz, h0]
  · intro hne
    have hlen : ((db.interventions.filter (remedialMatches studentId i)).length == 0)
        = false := by simp [hne]
    refine ⟨?_, ?_, ?_⟩
    · simp [handleRemedialCompletion, hiz, hlen]
    · simp [handleRemedialCompletion, hiz, hlen]
    · simp only [handleRemedialCompletion, hiz, hlen, Bool.false_eq_true, if_false]
      rw [filter_length_map_eq _ _ hg]
      exact hne

theorem C2_remedial_completion_amended_witness :
    (1 : Nat) ≠ 0 ∧
    (handleRemedialCompletion "S1" { interventionId := some 1 } dbC2).2 =
      [ServerMsg.remedialCompleted
        "Remedial task completed successfully! Full access restored." 1 "normal"] :=
  ⟨by decide,
   ((C2_remedial_completion_amended "S1" dbC2 1 (by decide)).2.2.2 (by decide)).1⟩

/-- C4: with the persistence step succeeding, a check-in that derives
Pending Mentor Review appends exactly one daily log and exactly one
intervention (taskAssigned = false, completed = false) for the same
identity, and answers with the pending-review result carrying the new
intervention's identifier; when the transaction fails, neither record
appears and the generic error is sent (no partial state).  An on-track
check-in appends exactly one daily log and no intervention. -/
theorem C4_pending_checkin_atomic (studentId : StudentId)
    (quizScore focusMinutes : Int) (simMode : Bool) (db : Db)
    (hnot : ¬(7 ≤ quizScore ∧ 60 ≤ focusMinutes)) :
    ((handleDailyCheckin studentId
        { quizScore := some quizScore, focusMinutes := some focusMinutes }
        simMode true db).1.dailyLogs =
       db.dailyLogs ++
         [{ logId := db.nextLogId, studentId := studentId,
            focusMinutes := focusMinutes, quizScore := quizScore,
            status := "Pending Mentor Review", timestamp := db.now }]) ∧
    ((handleDailyCheckin studentId
        { quizScore := some quizScore, focusMinutes := some focusMinutes }
        simMode true db).1.interventions =
       db.interventions ++
         [{ interventionId := db.nextInterventionId, studentId := studentId,
            taskAssigned := false, assignedTasks := none, completed := false,
            createdAt := db.now }]) ∧
    ((handleDailyCheckin studentId
        { quizScore := some quizScore, focusMinutes := some focusMinutes }
        simMode true db).2.1 =
       [ServerMsg.checkinResult "Pending Mentor Review"
          "Your performance needs attention. Waiting for mentor review."
          db.nextLogId (some db.nextInterventionId)]) ∧
    (handleDailyCheckin studentId
       { quizScore := some quizScore, focusMinutes := some focusMinutes }
       simMode false db =
       (db, [ServerMsg.errorMsg "Failed to process daily check-in"], [])) ∧
    (∀ q2 f2 : Int, 7 ≤ q2 → 60 ≤ f2 →
       (handleDailyCheckin studentId { quizScore := some q2, focusMinutes := some f2 }
          simMode true db).1.dailyLogs =
         db.dailyLogs ++
           [{ logId := db.nextLogId, studentId := studentId, focusMinutes := f2,
              quizScore := q2, status := "On Track", timestamp := db.now }] ∧
       (handleDailyCheckin studentId { quizScore := some q2, focusMinutes := some f2 }
          simMode true db).1.interventions = db.interventions) := by
  have hb : isOnTrack quizScore focusMinutes = false :=
    (isOnTrack_eq_false_iff quizScore focusMinutes).mpr hnot
  refine ⟨?_, ?_, ?_, ?_, ?_⟩
  · simp [handleDailyCheckin, hb, derivedStatus, dailyLogCreate, interventionCreate]
  · simp [handleDailyCheckin, hb, derivedStatus, dailyLogCreate, interventionCreate]
  · simp [handleDailyCheckin, hb, derivedStatus, dailyLogCreate, interventionCreate]
  · simp [handleDailyCheckin, hb]
  · intro q2 f2 hq2 hf2
    have ht : isOnTrack q2 f2 = true := (isOnTrack_eq_true_iff q2 f2).mpr ⟨hq2, hf2⟩
    constructor
    · simp [handleDailyCheckin, ht, derivedStatus, dailyLogCreate]
    · simp [handleDailyCheckin, ht, derivedStatus, dailyLogCreate]

theorem C4_pending_checkin_atomic_witness :
    ¬((7 : Int) ≤ 5 ∧ (60 : Int) ≤ 40) ∧
    (handleDailyCheckin "S1" { quizScore := some 5, focusMinutes := some 40 }
        true true dbEmpty).1.interventions =
      dbEmpty.interventions ++
        [{ interventionId := dbEmpty.nextInterventionId, studentId := "S1",
           taskAssigned := false, assignedTasks := none, completed := false,
           createdAt := dbEmpty.now }] :=
  ⟨by decide, (C4_pending_checkin_atomic "S1" 5 40 true dbEmpty (by decide)).2.1⟩

/-- C6: `verifyToken` yields null — the `catch` swallows the exception —
on a malformed, expired or signature-mismatched credential; and when a
`connect` message carries a credential it rejects, the handler sends the
error, closes the session and performs no registry mutation (the
identity is never bound) and no database change. -/
theorem C6_invalid_token_terminates_no_bind (secret badSecret : String)
    (claims : JwtClaims) (simMode dbOk : Bool) (s : Session)
    (reg : WebSocketManager) (db : Db) (token : Token)
    (hbad : badSecret ≠ secret) (hinv : verifyToken secret token = none) :
    verifyToken secret Token.malformed = none ∧
    verifyToken secret (Token.signed claims secret true) = none ∧
    verifyToken secret (Token.signed claims badSecret false) = none ∧
    (onWsMessage secret simMode dbOk s reg db (ClientMsg.connect token)).registry = reg ∧
    (onWsMessage secret simMode dbOk s reg db (ClientMsg.connect token)).session.closed
      = true ∧
    (onWsMessage secret simMode dbOk s reg db
       (ClientMsg.connect token)).session.studentId = none ∧
    (onWsMessage secret simMode dbOk s reg db (ClientMsg.connect token)).sent =
      [ServerMsg.errorMsg "Invalid token"] ∧
    (onWsMessage secret simMode dbOk s reg db (ClientMsg.connect token)).db = db := by
  refine ⟨rfl, ?_, ?_, ?_, ?_, ?_, ?_, ?_⟩
  · simp [verifyToken, jwtVerify]
  · simp [verifyToken, jwtVerify, hbad]
  all_goals simp [onWsMessage, hinv]

theorem C6_invalid_token_terminates_no_bind_witness :
    ("x" : String) ≠ "s" ∧
    verifyToken "s" Token.malformed = none ∧
    (onWsMessage "s" true true { connId := 1, studentId := none, closed := false }
       (WebSocketManager.mk []) dbEmpty (ClientMsg.connect Token.malformed)).registry =
      WebSocketManager.mk [] :=
  ⟨by decide, rfl,
   (C6_invalid_token_terminates_no_bind "s" "x" { studentId := "A" } true true
      { connId := 1, studentId := none, closed := false } (WebSocketManager.mk [])
      dbEmpty Token.malformed (by decide) rfl).2.2.2.1⟩

/-- C7: a `daily_checkin` or `remedial_completed` message received while
the session is unauthenticated yields only the "Not authenticated" error
— session, registry and database are unchanged and nothing is scheduled;
an unknown message type yields only the "Unknown message type" error and
transitions nothing, for any session state (the session stays open). -/
theorem C7_unauthenticated_and_unknown_messages (secret : String)
    (simMode dbOk : Bool) (s : Session) (reg : WebSocketManager) (db : Db)
    (h : s.studentId = none) :
    (∀ payload, onWsMessage secret simMode dbOk s reg db
        (ClientMsg.dailyCheckin payload) =
       { session := s, registry := reg, db := db,
         sent := [ServerMsg.errorMsg "Not authenticated"], scheduled := [] }) ∧
    (∀ payload, onWsMessage secret simMode dbOk s reg db
        (ClientMsg.remedialCompleted payload) =
       { session := s, registry := reg, db := db,
         sent := [ServerMsg.errorMsg "Not authenticated"], scheduled := [] }) ∧
    (∀ s2 : Session, onWsMessage secret simMode dbOk s2 reg db ClientMsg.unknownType =
       { session := s2, registry := reg, db := db,
         sent := [ServerMsg.errorMsg "Unknown message type"], scheduled := [] }) := by
  refine ⟨fun payload => ?_, fun payload => ?_, fun s2 => ?_⟩ <;>
    simp [onWsMessage, h]

theorem C7_unauthenticated_and_unknown_messages_witness :
    (Session.mk 1 none false).studentId = none ∧
    onWsMessage "s" true true (Session.mk 1 none false) (WebSocketManager.mk [])
      dbEmpty (ClientMsg.dailyCheckin { quizScore := some 5, focusMinutes := some 40 }) =
      { session := Session.mk 1 none false, registry := WebSocketManager.mk [],
        db := dbEmpty, sent := [ServerMsg.errorMsg "Not authenticated"],
        scheduled := [] } :=
  ⟨rfl,
   (C7_unauthenticated_and_unknown_messages "s" true true (Session.mk 1 none false)
      (WebSocketManager.mk []) dbEmpty rfl).1
     { quizScore := some 5, focusMinutes := some 40 }⟩

/-- The `intervention_assigned` event the simulated approval delivers. -/
def interventionAssignedMsg (interventionId : Nat) (assignedTasks : String) : ServerMsg :=
  ServerMsg.interventionAssigned interventionId assignedTasks
    "🎓 Remedial task has been assigned by your mentor. Please complete it to unlock full access."
    "remedial_only" true

/-- C8: when the pending check-in schedules the simulated approval, the
timer carries the fixed AUTO_APPROVE_DELAY; when it fires on an existing
intervention the task text is the three-way rule of (quizScore,
focusMinutes) — both low gives the combined text, only the quiz low the
quiz-focused text, only the focus low the focus-focused text — the
matching intervention rows are marked taskAssigned = true with that text
(other rows are untouched), and delivery of the `intervention_assigned`
event is attempted through `sendToStudent`. -/
theorem C8_simulated_approval_three_way (env : ConnId → ReadyState)
    (reg : WebSocketManager) (t : ScheduledApproval) (db : Db)
    (hnot : ¬(7 ≤ t.quizScore ∧ 60 ≤ t.focusMinutes))
    (hex : db.interventions.any (fun r => r.interventionId == t.interventionId) = true) :
    (t.quizScore < 7 ∧ t.focusMinutes < 60 →
       assignedTasksFor t.quizScore t.focusMinutes = taskCombined) ∧
    (t.quizScore < 7 ∧ 60 ≤ t.focusMinutes →
       assignedTasksFor t.quizScore t.focusMinutes = taskQuizOnly) ∧
    (7 ≤ t.quizScore ∧ t.focusMinutes < 60 →
       assignedTasksFor t.quizScore t.focusMinutes = taskFocusOnly) ∧
    (∀ r, r ∈ (simulateN8nApproval env reg t db).db.interventions →
       r.interventionId = t.interventionId →
       r.taskAssigned = true ∧
       r.assignedTasks = some (assignedTasksFor t.quizScore t.focusMinutes)) ∧
    (∀ r, r ∈ db.interventions → r.interventionId ≠ t.interventionId →
       r ∈ (simulateN8nApproval env reg t db).db.interventions) ∧
    ((simulateN8nApproval env reg t db).sent =
       (sendToStudent env reg t.studentId
         (interventionAssignedMsg t.interventionId
           (assignedTasksFor t.quizScore t.focusMinutes))).1) ∧
    ((simulateN8nApproval env reg t db).deliveries =
       (sendToStudent env reg t.studentId
         (interventionAssignedMsg t.interventionId
           (assignedTasksFor t.quizScore t.focusMinutes))).2.2) ∧
    (∀ (studentId2 : StudentId) (payload2 : CheckinPayload) (db2 : Db),
       ((handleDailyCheckin studentId2 payload2 true true db2).2.2.all
          (fun sch => sch.delay == AUTO_APPROVE_DELAY)) = true) := by
  refine ⟨?_, ?_, ?_, ?_, ?_, ?_, ?_, ?_⟩
  · rintro ⟨h1, h2⟩
    simp [assignedTasksFor, h1, h2]
  · rintro ⟨h1, h2⟩
    have h3 : ¬(t.focusMinutes < 60) := not_lt.mpr h2
    simp [assignedTasksFor, h1, h3]
  · rintro ⟨h1, h2⟩
    have h3 : ¬(t.quizScore < 7) := not_lt.mpr h1
    simp [assignedTasksFor, h2, h3]
  · intro r hr hrid
    simp only [simulateN8nApproval, hex, if_true, List.mem_map] at hr
    obtain ⟨a, ha, hra⟩ := hr
    by_cases hida : a.interventionId = t.interventionId
    · rw [← hra]
      simp [hida]
    · exfalso
      rw [← hra] at hrid
      simp [hida] at hrid
  · intro r hr hrid
    simp only [simulateN8nApproval, hex, if_true, List.mem_map]
    exact ⟨r, hr, by simp [hrid]⟩
  · simp [simulateN8nApproval, hex, interventionAssignedMsg]
  · simp [simulateN8nApproval, hex, interventionAssignedMsg]
  · intro studentId2 payload2 db2
    obtain ⟨oq, of⟩ := payload2
    cases oq with
    | none => simp [handleDailyCheckin]
    | some q2 =>
      cases of with
      | none => simp [handleDailyCheckin]
      | some f2 =>
        by_cases ht : isOnTrack q2 f2
        · simp [handleDailyCheckin, ht]
        · simp only [Bool.not_eq_true] at ht
          simp [handleDailyCheckin, ht]

theorem C8_simulated_approval_three_way_witness :
    ¬((7 : Int) ≤ 5 ∧ (60 : Int) ≤ 40) ∧
    (dbC2.interventions.any (fun r => r.interventionId == 1)) = true ∧
    assignedTasksFor 5 40 = taskCombined :=
  ⟨by decide, by decide,
   (C8_simulated_approval_three_way (fun _ => ReadyState.OPEN) (WebSocketManager.mk [])
      { studentId := "S1", interventionId := 1, quizScore := 5, focusMinutes := 40,
        delay := AUTO_APPROVE_DELAY }
      dbC2 (by decide) (by decide)).1 (by decide)⟩

/-- C9: when the simulated approval fires for an existing intervention of
a student with no bound connection, `sendToStudent` returns false, no
write is handed to any channel, nothing is queued or rescheduled; the
updated record keeps completed = false while gaining taskAssigned = true,
it is returned by the pull-based pending-interventions query for that
identity, and that query's output is always ordered most recent first
(descending createdAt).  Delivery failure loses no data. -/
theorem C9_offline_delivery_pull (env : ConnId → ReadyState)
    (reg : WebSocketManager) (t : ScheduledApproval) (db : Db) (r : Intervention)
    (hmem : r ∈ db.interventions)
    (hid : r.interventionId = t.interventionId)
    (hsid : r.studentId = t.studentId)
    (hcomp : r.completed = false)
    (hoffline : mapGet reg.connections t.studentId = none) :
    (simulateN8nApproval env reg t db).sent = false ∧
    (simulateN8nApproval env reg t db).deliveries = [] ∧
    (simulateN8nApproval env reg t db).rescheduled = [] ∧
    ({ r with
        taskAssigned := true
        assignedTasks := some (assignedTasksFor t.quizScore t.focusMinutes) } ∈
       (simulateN8nApproval env reg t db).db.interventions) ∧
    ({ r with
        taskAssigned := true
        assignedTasks := some (assignedTasksFor t.quizScore t.focusMinutes) } ∈
       pendingInterventionsFor (simulateN8nApproval env reg t db).db t.studentId) ∧
    (∀ (db2 : Db) (sid2 : StudentId),
       (pendingInterventionsFor db2 sid2).Pairwise DescByCreated) := by
  have hex : db.interventions.any (fun r2 => r2.interventionId == t.interventionId)
      = true := by
    rw [List.any_eq_true]
    exact ⟨r, hmem, by simp [hid]⟩
  have hupd : ({ r with
      taskAssigned := true
      assignedTasks := some (assignedTasksFor t.quizScore t.focusMinutes) } ∈
      (simulateN8nApproval env reg t db).db.interventions) := by
    simp only [simulateN8nApproval, hex, if_true, List.mem_map]
    refine ⟨r, hmem, ?_⟩
    simp [hid]
  refine ⟨?_, ?_, ?_, hupd, ?_, ?_⟩
  · simp [simulateN8nApproval, hex, sendToStudent, hoffline]
  · simp [simulateN8nApproval, hex, sendToStudent, hoffline]
  · simp [simulateN8nApproval, hex]
  · rw [pendingInterventionsFor, mem_sortByCreatedAtDesc, List.mem_filter]
    refine ⟨hupd, ?_⟩
    simp [isPendingFor, hsid, hcomp]
  · intro db2 sid2
    exact pairwise_sortByCreatedAtDesc _

/-- A database holding the freshly created (not yet assigned)
intervention of an offline student "S2". -/
def dbC9 : Db :=
  { dailyLogs := [],
    interventions := [{ interventionId := 1, studentId := "S2", taskAssigned := false,
                        assignedTasks := none, completed := false, createdAt := 0 }],
    nextLogId := 1, nextInterventionId := 2, now := 1 }

theorem C9_offline_delivery_pull_witness :
    ({ interventionId := 1, studentId := "S2", taskAssigned := false,
       assignedTasks := none, completed := false, createdAt := 0 } : Intervention) ∈
      dbC9.interventions ∧
    mapGet (WebSocketManager.mk []).connections "S2" = none ∧
    (simulateN8nApproval (fun _ => ReadyState.OPEN) (WebSocketManager.mk [])
      { studentId := "S2", interventionId := 1, quizScore := 5, focusMinutes := 40,
        delay := AUTO_APPROVE_DELAY } dbC9).sent = false :=
  ⟨by decide, rfl,
   (C9_offline_delivery_pull (fun _ => ReadyState.OPEN) (WebSocketManager.mk [])
      { studentId := "S2", interventionId := 1, quizScore := 5, focusMinutes := 40,
        delay := AUTO_APPROVE_DELAY } dbC9
      { interventionId := 1, studentId := "S2", taskAssigned := false,
        assignedTasks := none, completed := false, createdAt := 0 }
      (by decide) rfl rfl rfl rfl).1⟩

/-- C10: a `connect` message on a session already authenticated as
identity `a` is accepted with no re-authentication guard: with a valid
credential for a different identity `b` the session rebinds to `b`, a
fresh "connected" confirmation is sent and the session stays open, while
the registry entry for `a` — which pointed at this very connection — is
left in place, and the later close handler removes only `b`, so `a`
keeps a stale entry pointing at this connection. -/
theorem C10_reauth_leaves_stale_entry (secret : String) (simMode dbOk : Bool)
    (reg : WebSocketManager) (db : Db) (conn : ConnId) (a b : StudentId)
    (claims : JwtClaims) (s : Session)
    (hs1 : s.connId = conn) (hs2 : s.studentId = some a) (hs3 : s.closed = false)
    (hbound : mapGet reg.connections a = some conn)
    (hne : a ≠ b) (hb : claims.studentId = b) :
    ((onWsMessage secret simMode dbOk s reg db
        (ClientMsg.connect (Token.signed claims secret false))).session.studentId =
       some b) ∧
    ((onWsMessage secret simMode dbOk s reg db
        (ClientMsg.connect (Token.signed claims secret false))).session.closed =
       false) ∧
    ((onWsMessage secret simMode dbOk s reg db
        (ClientMsg.connect (Token.signed claims secret false))).sent =
       [ServerMsg.connected "Successfully connected" b simMode]) ∧
    (mapGet (onWsMessage secret simMode dbOk s reg db
        (ClientMsg.connect (Token.signed claims secret false))).registry.connections b =
       some conn) ∧
    (mapGet (onWsMessage secret simMode dbOk s reg db
        (ClientMsg.connect (Token.signed claims secret false))).registry.connections a =
       some conn) ∧
    (mapGet (onWsClose
        (onWsMessage secret simMode dbOk s reg db
          (ClientMsg.connect (Token.signed claims secret false))).session
        (onWsMessage secret simMode dbOk s reg db
          (ClientMsg.connect (Token.signed claims secret false))).registry).connections
       a = some conn) := by
  have hv : verifyToken secret (Token.signed claims secret false) = some b := by
    simp [verifyToken, jwtVerify, hb]
  refine ⟨?_, ?_, ?_, ?_, ?_, ?_⟩
  · simp [onWsMessage, hv]
  · simp [onWsMessage, hv, hs3]
  · simp [onWsMessage, hv]
  · simp [onWsMessage, hv, addConnection, hs1, mapGet_mapSet_self]
  · simp only [onWsMessage, hv, addConnection]
    rw [mapGet_mapSet_ne _ _ _ _ hne]
    exact hbound
  · simp only [onWsMessage, hv, addConnection, onWsClose, removeConnection]
    rw [mapGet_mapDelete_ne _ _ _ hne, mapGet_mapSet_ne _ _ _ _ hne]
    exact hbound

theorem C10_reauth_leaves_stale_entry_witness :
    ("A" : StudentId) ≠ "B" ∧
    mapGet (WebSocketManager.mk [("A", 1)]).connections "A" = some 1 ∧
    mapGet (onWsClose
        (onWsMessage "s" true true (Session.mk 1 (some "A") false)
          (WebSocketManager.mk [("A", 1)]) dbEmpty
          (ClientMsg.connect (Token.signed { studentId := "B" } "s" false))).session
        (onWsMessage "s" true true (Session.mk 1 (some "A") false)
          (WebSocketManager.mk [("A", 1)]) dbEmpty
          (ClientMsg.connect (Token.signed { studentId := "B" } "s" false))).registry).connections
      "A" = some 1 :=
  ⟨by decide, rfl,
   (C10_reauth_leaves_stale_entry "s" true true (WebSocketManager.mk [("A", 1)])
      dbEmpty 1 "A" "B" { studentId := "B" } (Session.mk 1 (some "A") false)
      rfl rfl rfl rfl (by decide) rfl).2.2.2.2.2⟩
